import Mathlib

/-!
Verification development for the Bylund Knock Shield example firmware.

Two program variants are embedded from the C++ sources:
* the single-channel variant (`Knock_Shield_Example.ino`), and
* the dual-channel variant with SD-card logging (`src/unnamed/part_000`).

Side-effecting Arduino calls are modelled as an explicit event trace
(`Event`): each `digitalWrite`, `SPI.transfer`, `delay`, `analogRead`,
serial print and SD-card call of the source appears, in source order, as
one trace element.  Pure computations (`map`, the percentage conversion,
the max selection, the threshold comparisons) are embedded as Lean
functions.

The C `float` arithmetic of the percentage conversion is modelled as
exact rational arithmetic (`ℚ`).  Every comparison the claims depend on
(`knock_percentage >= 80` at raw values 818 and 819, with exact values
79.96...% and 80.05...%) is separated from the threshold by more than
0.04, which is vastly larger than the relative rounding error of IEEE
single-precision arithmetic (about 1.2e-7 per operation), so the rational
model decides every such comparison exactly as the float program does.

Arduino `map` works on `long` (32-bit signed) values with C truncating
division; it is embedded on `ℤ` with `Int.div` (truncation toward zero),
and the `uint8_t` store of its result is the `% 256` reduction.
-/

namespace KnockShield

/-! ## Register constants and pin assignments (both variants) -/

def SPU_SET_PRESCALAR_6MHz : Nat := 0b01000100
def SPU_SET_CHANNEL_1 : Nat := 0b11100000
def SPU_SET_CHANNEL_2 : Nat := 0b11100001
def SPU_SET_BAND_PASS_FREQUENCY : Nat := 0b00101010
def SPU_SET_PROGRAMMABLE_GAIN : Nat := 0b10100010
def SPU_SET_INTEGRATOR_TIME : Nat := 0b11001010
def KNOCK_THRESHOLD_LEVEL : Nat := 204
def MEASUREMENT_WINDOW_TIME : Nat := 3000

def SPU_NSS_PIN : Nat := 10
def SDCARD_CS_PIN : Nat := 9
def SPU_TEST_PIN : Nat := 5
def SPU_HOLD_PIN : Nat := 4
def LED_STATUS : Nat := 7
def LED_LIMIT : Nat := 6
def ANALOG_INPUT_PIN : Nat := 0
def ANALOG_OUTPUT_PIN : Nat := 3

/-! ## Event trace model of the Arduino side effects -/

/-- Digital pin level, `LOW` / `HIGH` of the Arduino API. -/
inductive Level where
  | low
  | high
  deriving DecidableEq

/-- One observable side effect of the firmware, in source order. -/
inductive Event where
  | serialBegin (baud : Nat)
  | spiBegin
  | spiSetBitOrder
  | spiSetClockDiv (d : Nat)
  | spiSetDataMode (m : Nat)
  | pinModeOut (pin : Nat)
  | digitalWrite (pin : Nat) (lvl : Level)
  | spiTransfer (tx : Nat)
  | delayMs (n : Nat)
  | delayUs (n : Nat)
  | adcRead (pin : Nat) (val : Nat)
  | analogWrite (pin : Nat) (val : Nat)
  | serialPrint (s : String)
  | serialPrintLn (s : String)
  | serialPrintNum (n : Nat)
  | sdBegin (ok : Bool)
  | sdOpen (name : String)
  | sdPrintLn (s : String)
  | sdClose
  deriving DecidableEq

/-! ## SPI transfer, `COM_SPI` of each variant -/

/-- `COM_SPI` of the dual-channel variant (part_000 lines 60-76):
re-asserts SPI mode and clock divider, pulls chip select low, transfers
one byte, pulls chip select high. -/
def COM_SPI (TX_data : Nat) : List Event :=
  [ .spiSetDataMode 1,
    .spiSetClockDiv 16,
    .digitalWrite SPU_NSS_PIN .low,
    .spiTransfer TX_data,
    .digitalWrite SPU_NSS_PIN .high ]

/-- `COM_SPI` of the single-channel variant (ino lines 52-70): chip
select low, transfer, chip select high, then a diagnostic print of the
response byte `rx` received from the SPU. -/
def COM_SPI_single (TX_data rx : Nat) : List Event :=
  [ .digitalWrite SPU_NSS_PIN .low,
    .spiTransfer TX_data,
    .digitalWrite SPU_NSS_PIN .high,
    .serialPrint "SPU_SPI: 0x",
    .serialPrintNum rx,
    .serialPrint "\n\r" ]

/-! ## Trace projections used by the theorems -/

/-- The bytes written over SPI, in order. -/
def spiBytes (t : List Event) : List Nat :=
  t.filterMap fun e =>
    match e with
    | .spiTransfer b => some b
    | _ => none

/-- The levels written to the SPU chip-select pin, in order. -/
def nssLevels (t : List Event) : List Level :=
  t.filterMap fun e =>
    match e with
    | .digitalWrite p l => if p = SPU_NSS_PIN then some l else none
    | _ => none

/-- Keeps the events a chip-select framing argument is about: writes to
the SPU chip-select pin and SPI byte transfers. -/
def isNssOrTransfer (e : Event) : Bool :=
  match e with
  | .digitalWrite p _ => p = SPU_NSS_PIN
  | .spiTransfer _ => true
  | _ => false

/-- Keeps the events the measurement-window protocol is about: SPI byte
transfers (channel selection), writes to the hold pin, microsecond
delays, and ADC samples. -/
def isMeasEvent (e : Event) : Bool :=
  match e with
  | .spiTransfer _ => true
  | .digitalWrite p _ => p = SPU_HOLD_PIN
  | .delayUs _ => true
  | .adcRead _ _ => true
  | _ => false

/-- Counts the SD-card `begin` probes in a trace; `logData` performs
exactly one such probe as its first action, and nothing else in the loop
body touches the SD card, so this counts the `logData` invocations. -/
def countSdBegin (t : List Event) : Nat :=
  t.countP fun e =>
    match e with
    | .sdBegin _ => true
    | _ => false

/-! ## Pure computations of the loop bodies -/

/-- Arduino `map` (from the Arduino core library), on `long` values:
`(x - in_min) * (out_max - out_min) / (in_max - in_min) + out_min`,
with C truncating division. -/
def arduinoMap (x in_min in_max out_min out_max : Int) : Int :=
  Int.tdiv ((x - in_min) * (out_max - out_min)) (in_max - in_min) + out_min

/-- The rescale call `map(adcValue, 0, 1023, 0, 255)` (ino line 139,
part_000 line 205). -/
def spuMap (r : Nat) : Int :=
  arduinoMap (Int.ofNat r) 0 1023 0 255

/-- The value stored into `uint8_t analogOutput`: the `map` result
reduced by the 8-bit unsigned store. -/
def analogOutput (r : Nat) : Nat :=
  (spuMap r).toNat % 256

/-- `knock_percentage = ((float)adcValue_UA / 1023) * 100` (ino line
136; identically `knockChannel1` / `knockChannel2` in part_000 lines
197-198), float modelled as exact rational arithmetic. -/
def knock_percentage (r : Nat) : ℚ :=
  ((r : ℚ) / 1023) * 100

/-- The limit decision of the single-channel variant (ino line 143):
`knock_percentage >= 80`. -/
def limitSingle (r : Nat) : Bool :=
  decide ((80 : ℚ) ≤ knock_percentage r)

/-- The limit decision of the dual-channel variant (part_000 line 209):
`analogOutput >= KNOCK_THRESHOLD_LEVEL`. -/
def limitDual (output : Nat) : Bool :=
  decide (KNOCK_THRESHOLD_LEVEL ≤ output)

/-- The channel-combining conditional of part_000 lines 201-202:
`if (adcChannel1 < adcChannel2) adcValue = adcChannel2; else adcValue =
adcChannel1;`. -/
def adcValue (adcChannel1 adcChannel2 : Nat) : Nat :=
  if adcChannel1 < adcChannel2 then adcChannel2 else adcChannel1

/-- The rounded percentage as printed by `String(knockChannelN, 0)`. -/
def pctRound (r : Nat) : Int :=
  round (knock_percentage r)

/-- The log/diagnostic line assembled in part_000 lines 212-216. -/
def txString (raw1 raw2 : Nat) : String :=
  "Channel 1: " ++ toString (pctRound raw1) ++ "% - Channel 2: "
    ++ toString (pctRound raw2) ++ "%"

/-! ## Logging (dual-channel variant) -/

/-- `logData` (part_000 lines 79-100): probes the SD card; on success
opens `log.txt`, appends the line and closes the file; on failure prints
one error line and returns.  `sdOk` is the environment's answer to the
`SD.begin` probe.  The function reads no global state and writes none:
in particular it never touches `logEnabled`. -/
def logData (logString : String) (sdOk : Bool) : List Event :=
  if sdOk then
    [ .sdBegin true, .sdOpen "log.txt", .sdPrintLn logString, .sdClose ]
  else
    [ .sdBegin false, .serialPrintLn "Error accessing SD-card." ]

/-! ## Start-up (`setup`) of each variant -/

/-- `setup` of the single-channel variant (ino lines 73-112).  The five
`rx` arguments are the SPU response bytes the environment returns for
the five configuration transfers (only echoed to serial). -/
def setupTrace_single (rx1 rx2 rx3 rx4 rx5 : Nat) : List Event :=
  [ .serialBegin 9600,
    .spiBegin, .spiSetClockDiv 16, .spiSetBitOrder, .spiSetDataMode 1,
    .pinModeOut SPU_NSS_PIN, .pinModeOut SPU_TEST_PIN,
    .pinModeOut SPU_HOLD_PIN, .pinModeOut LED_STATUS,
    .pinModeOut LED_LIMIT,
    .digitalWrite SPU_NSS_PIN .high,
    .digitalWrite SPU_TEST_PIN .high,
    .digitalWrite SPU_HOLD_PIN .low,
    .serialPrint "Device reset.\n\r",
    .digitalWrite LED_STATUS .high, .digitalWrite LED_LIMIT .high,
    .delayMs 200,
    .digitalWrite LED_STATUS .low, .digitalWrite LED_LIMIT .low,
    .delayMs 200 ]
  ++ COM_SPI_single SPU_SET_PRESCALAR_6MHz rx1
  ++ COM_SPI_single SPU_SET_CHANNEL_1 rx2
  ++ COM_SPI_single SPU_SET_BAND_PASS_FREQUENCY rx3
  ++ COM_SPI_single SPU_SET_PROGRAMMABLE_GAIN rx4
  ++ COM_SPI_single SPU_SET_INTEGRATOR_TIME rx5

/-- `setup` of the dual-channel variant (part_000 lines 103-155).
`sdAvailable` is the environment's answer to the start-up `SD.begin`
probe; the four `rx` arguments are the SPU response bytes echoed to
serial.  Returns the value of the global `logEnabled` after `setup`
(initialised `false` at line 57, set `true` at line 140 iff the probe
succeeded) together with the event trace. -/
def setup_dual (sdAvailable : Bool) (rx1 rx2 rx3 rx4 : Nat) :
    Bool × List Event :=
  (sdAvailable,
    [ .serialBegin 9600,
      .spiBegin, .spiSetBitOrder,
      .pinModeOut SPU_NSS_PIN, .pinModeOut SDCARD_CS_PIN,
      .pinModeOut SPU_TEST_PIN, .pinModeOut SPU_HOLD_PIN,
      .pinModeOut LED_STATUS, .pinModeOut LED_LIMIT,
      .digitalWrite SPU_NSS_PIN .high,
      .digitalWrite SDCARD_CS_PIN .high,
      .digitalWrite SPU_TEST_PIN .high,
      .digitalWrite SPU_HOLD_PIN .low,
      .serialPrint "Device reset.\n\r",
      .digitalWrite LED_STATUS .high, .digitalWrite LED_LIMIT .high,
      .delayMs 200,
      .digitalWrite LED_STATUS .low, .digitalWrite LED_LIMIT .low,
      .delayMs 200,
      .sdBegin sdAvailable ]
    ++ (if sdAvailable then [Event.serialPrintLn "Data logging enabled."]
        else [])
    ++ [ .serialPrint "Configuring SPU: 0x" ]
    ++ COM_SPI SPU_SET_PRESCALAR_6MHz
    ++ [ .serialPrintNum rx1, .serialPrint ", 0x" ]
    ++ COM_SPI SPU_SET_BAND_PASS_FREQUENCY
    ++ [ .serialPrintNum rx2, .serialPrint ", 0x" ]
    ++ COM_SPI SPU_SET_PROGRAMMABLE_GAIN
    ++ [ .serialPrintNum rx3, .serialPrint ", 0x" ]
    ++ COM_SPI SPU_SET_INTEGRATOR_TIME
    ++ [ .serialPrintNum rx4, .serialPrint "\n\r" ])

/-! ## Main loop body (dual-channel variant, part_000 lines 158-233) -/

/-- One iteration of the dual-channel main loop.  `raw1`, `raw2` are the
environment's ADC readings for the two channels, `logE` the value of the
global `logEnabled`, `sdOk` the environment's answer to the `SD.begin`
probe inside `logData` (only consulted when logging is enabled). -/
def loopBody (raw1 raw2 : Nat) (logE sdOk : Bool) : List Event :=
  [ .digitalWrite LED_STATUS .high ]
  ++ COM_SPI SPU_SET_CHANNEL_1
  ++ [ .digitalWrite SPU_HOLD_PIN .high,
       .delayUs MEASUREMENT_WINDOW_TIME,
       .digitalWrite SPU_HOLD_PIN .low,
       .adcRead ANALOG_INPUT_PIN raw1 ]
  ++ COM_SPI SPU_SET_CHANNEL_2
  ++ [ .digitalWrite SPU_HOLD_PIN .high,
       .delayUs MEASUREMENT_WINDOW_TIME,
       .digitalWrite SPU_HOLD_PIN .low,
       .adcRead ANALOG_INPUT_PIN raw2 ]
  ++ [ .analogWrite ANALOG_OUTPUT_PIN (analogOutput (adcValue raw1 raw2)),
       .digitalWrite LED_LIMIT
         (if limitDual (analogOutput (adcValue raw1 raw2)) then .high
          else .low),
       .serialPrintLn (txString raw1 raw2) ]
  ++ (if logE then logData (txString raw1 raw2) sdOk else [])
  ++ [ .delayMs 100, .digitalWrite LED_STATUS .low, .delayMs 400 ]

/-- The infinite `while (1)` loop, unrolled over a finite list of
per-iteration environment inputs `(raw1, raw2, sdOk)`.  `logEnabled` is
only ever read in the loop (part_000 line 222), never assigned, so each
iteration passes it through unchanged; the returned flag is its value
after the run. -/
def runLoop (logE : Bool) :
    List (Nat × Nat × Bool) → Bool × List Event
  | [] => (logE, [])
  | (raw1, raw2, sdOk) :: rest =>
    ((runLoop logE rest).fst,
      loopBody raw1 raw2 logE sdOk ++ (runLoop logE rest).snd)

/-! ## Contiguous-subsequence test on byte lists -/

/-- `startsWithSeq pat xs` holds iff `pat` is an initial segment of
`xs`. -/
def startsWithSeq : List Nat → List Nat → Bool
  | [], _ => true
  | _ :: _, [] => false
  | p :: ps, x :: xs => (p == x) && startsWithSeq ps xs

/-- `containsSeq pat xs` holds iff `pat` occurs in `xs` as a contiguous
run. -/
def containsSeq (pat : List Nat) : List Nat → Bool
  | [] => startsWithSeq pat []
  | x :: xs => startsWithSeq pat (x :: xs) || containsSeq pat xs

/-! ## Further trace projections -/

/-- The values written to the PWM analog output pin, in order. -/
def analogWrites (t : List Event) : List Nat :=
  t.filterMap fun e =>
    match e with
    | .analogWrite p v => if p = ANALOG_OUTPUT_PIN then some v else none
    | _ => none

/-- The levels written to the limit LED pin, in order. -/
def limitLevels (t : List Event) : List Level :=
  t.filterMap fun e =>
    match e with
    | .digitalWrite p l => if p = LED_LIMIT then some l else none
    | _ => none

/-! ## Helper lemmas -/

/-- The `map` rescale followed by the `uint8_t` store is `r * 255 / 1023
% 256` on naturals (all intermediate `long` values are non-negative). -/
theorem analogOutput_eq (r : Nat) :
    analogOutput r = r * 255 / 1023 % 256 := rfl

/-- Below the ADC maximum the `uint8_t` store does not reduce. -/
theorem analogOutput_eq_of_le {r : Nat} (h : r ≤ 1023) :
    analogOutput r = r * 255 / 1023 := by
  rw [analogOutput_eq]
  omega

/-- The rescale is monotone on the ADC range. -/
theorem analogOutput_mono {r s : Nat} (hrs : r ≤ s) (hs : s ≤ 1023) :
    analogOutput r ≤ analogOutput s := by
  rw [analogOutput_eq_of_le (hrs.trans hs), analogOutput_eq_of_le hs]
  omega

/-- The channel-combining conditional computes the maximum, ties
included. -/
theorem adcValue_eq_max (r1 r2 : Nat) : adcValue r1 r2 = max r1 r2 := by
  unfold adcValue
  rcases Nat.lt_or_ge r1 r2 with h | h
  · rw [if_pos h, Nat.max_eq_right h.le]
  · rw [if_neg (Nat.not_lt.mpr h), Nat.max_eq_left h]

/-- Monotonicity lets the rescale commute with the maximum on the ADC
range. -/
theorem analogOutput_max {r1 r2 : Nat} (h1 : r1 ≤ 1023)
    (h2 : r2 ≤ 1023) :
    analogOutput (max r1 r2) = max (analogOutput r1) (analogOutput r2) := by
  rcases le_total r1 r2 with h | h
  · rw [Nat.max_eq_right h, Nat.max_eq_right (analogOutput_mono h h2)]
  · rw [Nat.max_eq_left h, Nat.max_eq_left (analogOutput_mono h h1)]

/-- The single-channel limit comparison `knock_percentage >= 80` first
becomes true at raw value 819. -/
theorem limitSingle_iff (r : Nat) : limitSingle r = true ↔ 819 ≤ r := by
  simp only [limitSingle, knock_percentage, decide_eq_true_eq]
  rw [div_mul_eq_mul_div, le_div_iff₀ (by norm_num : (0:ℚ) < 1023)]
  rw [show ((80:ℚ) * 1023) = ((81840 : Nat) : ℚ) by norm_num]
  rw [show ((r:ℚ) * 100) = (((r * 100 : Nat)) : ℚ) by push_cast; ring]
  rw [Nat.cast_le]
  omega

/-- The dual-channel limit comparison `analogOutput >= 204` on the
rescaled value first becomes true at raw value 819. -/
theorem limitDual_map_iff (r : Nat) :
    limitDual (r * 255 / 1023) = true ↔ 819 ≤ r := by
  simp only [limitDual, KNOCK_THRESHOLD_LEVEL, decide_eq_true_eq]
  omega

/-- The percentage conversion is monotone. -/
theorem pct_mono {r s : Nat} (h : r ≤ s) :
    knock_percentage r ≤ knock_percentage s := by
  unfold knock_percentage
  have hc : (r : ℚ) ≤ (s : ℚ) := by exact_mod_cast h
  gcongr

/-- The percentage conversion is non-negative. -/
theorem pct_nonneg (r : Nat) : 0 ≤ knock_percentage r := by
  unfold knock_percentage
  positivity

/-- The percentage conversion is at most 100 on the ADC range. -/
theorem pct_le_100 {r : Nat} (h : r ≤ 1023) : knock_percentage r ≤ 100 := by
  unfold knock_percentage
  rw [div_mul_eq_mul_div, div_le_iff₀ (by norm_num : (0:ℚ) < 1023)]
  have hc : (r : ℚ) ≤ 1023 := by exact_mod_cast h
  nlinarith

/-- The percentage is zero exactly at raw value 0. -/
theorem pct_eq_zero_iff (r : Nat) : knock_percentage r = 0 ↔ r = 0 := by
  unfold knock_percentage
  constructor
  · intro h
    field_simp at h
    have : r * 100 = 0 := by exact_mod_cast h
    omega
  · intro h
    subst h
    norm_num

/-- On the ADC range the percentage is 100 exactly at raw value 1023. -/
theorem pct_eq_100_iff {r : Nat} (h : r ≤ 1023) :
    knock_percentage r = 100 ↔ r = 1023 := by
  unfold knock_percentage
  constructor
  · intro he
    field_simp at he
    have : r * 100 = 100 * 1023 := by exact_mod_cast he
    omega
  · intro he
    subst he
    norm_num

/-- The loop body writes the analog output pin exactly once, with the
rescale of the combined value. -/
theorem analogWrites_loopBody (raw1 raw2 : Nat) (logE sdOk : Bool) :
    analogWrites (loopBody raw1 raw2 logE sdOk) =
      [analogOutput (adcValue raw1 raw2)] := by
  cases logE <;> cases sdOk <;> rfl

/-- The loop body writes the limit LED exactly once, with the threshold
decision on the rescale of the combined value. -/
theorem limitLevels_loopBody (raw1 raw2 : Nat) (logE sdOk : Bool) :
    limitLevels (loopBody raw1 raw2 logE sdOk) =
      [if limitDual (analogOutput (adcValue raw1 raw2)) then .high
       else .low] := by
  cases logE <;> cases sdOk <;> rfl

/-- The loop never assigns `logEnabled`: after any number of iterations
the flag still holds its start-up value. -/
theorem runLoop_fst (logE : Bool) (inputs : List (Nat × Nat × Bool)) :
    (runLoop logE inputs).fst = logE := by
  induction inputs with
  | nil => rfl
  | cons x rest ih =>
    obtain ⟨r1, r2, sdOk⟩ := x
    simp [runLoop, ih]

/-- The unrolled loop's trace is the concatenation of the per-iteration
traces: no iteration's outcome (in particular no storage failure) stops
or alters the following iterations. -/
theorem runLoop_trace (logE : Bool) (inputs : List (Nat × Nat × Bool)) :
    (runLoop logE inputs).snd =
      (inputs.map fun i => loopBody i.1 i.2.1 logE i.2.2).flatten := by
  induction inputs with
  | nil => rfl
  | cons x rest ih =>
    obtain ⟨r1, r2, sdOk⟩ := x
    simp [runLoop, ih]

/-! ## Claim theorems -/

/-- C1: in every iteration of the dual-channel main loop, the
measurement-relevant events are exactly: channel-1 select byte over SPI,
hold pin high, 3000 µs wait, hold pin low, ADC sample — then the same
five steps for channel 2; the two channels run sequentially, channel 1
completely before channel 2, never interleaved. -/
theorem claim_C1 (raw1 raw2 : Nat) (logE sdOk : Bool) :
    (loopBody raw1 raw2 logE sdOk).filter isMeasEvent =
      [ .spiTransfer SPU_SET_CHANNEL_1,
        .digitalWrite SPU_HOLD_PIN .high,
        .delayUs MEASUREMENT_WINDOW_TIME,
        .digitalWrite SPU_HOLD_PIN .low,
        .adcRead ANALOG_INPUT_PIN raw1,
        .spiTransfer SPU_SET_CHANNEL_2,
        .digitalWrite SPU_HOLD_PIN .high,
        .delayUs MEASUREMENT_WINDOW_TIME,
        .digitalWrite SPU_HOLD_PIN .low,
        .adcRead ANALOG_INPUT_PIN raw2 ]
    ∧ MEASUREMENT_WINDOW_TIME = 3000 := by
  cases logE <;> cases sdOk <;> exact ⟨rfl, rfl⟩

/-- C2: in the dual-channel loop the combined value is the maximum of
the two raw readings (ties included), the single analog-output write
and the single limit-LED write are both driven by
`analogOutput (max raw1 raw2)`, and by monotonicity this equals
`max (analogOutput raw1) (analogOutput raw2)`. -/
theorem claim_C2 (raw1 raw2 : Nat) (logE sdOk : Bool)
    (h1 : raw1 ≤ 1023) (h2 : raw2 ≤ 1023) :
    adcValue raw1 raw2 = max raw1 raw2
    ∧ analogWrites (loopBody raw1 raw2 logE sdOk) =
        [analogOutput (max raw1 raw2)]
    ∧ limitLevels (loopBody raw1 raw2 logE sdOk) =
        [if limitDual (analogOutput (max raw1 raw2)) then .high else .low]
    ∧ analogOutput (max raw1 raw2) =
        max (analogOutput raw1) (analogOutput raw2) := by
  refine ⟨adcValue_eq_max raw1 raw2, ?_, ?_, analogOutput_max h1 h2⟩
  · rw [analogWrites_loopBody, adcValue_eq_max]
  · rw [limitLevels_loopBody, adcValue_eq_max]

/-- Witness for C2 at raw1 = 600, raw2 = 300. -/
theorem claim_C2_witness :
    (600 ≤ 1023) ∧ (300 ≤ 1023)
    ∧ (adcValue 600 300 = max 600 300
      ∧ analogWrites (loopBody 600 300 false false) =
          [analogOutput (max 600 300)]
      ∧ limitLevels (loopBody 600 300 false false) =
          [if limitDual (analogOutput (max 600 300)) then .high else .low]
      ∧ analogOutput (max 600 300) =
          max (analogOutput 600) (analogOutput 300)) :=
  ⟨by decide, by decide,
    claim_C2 600 300 false false (by decide) (by decide)⟩

/-- C3: the dual-channel limit indicator is asserted iff the analog
output reaches the threshold 204 (false at 203 and 0, true at 204 and
255), and as a function of the raw ADC value the single-channel limit
decision (`knock_percentage >= 80`) agrees with the dual-channel one
(`analogOutput >= 204`) on the whole ADC range. -/
theorem claim_C3 (output r : Nat) (_ho : output ≤ 255) (hr : r ≤ 1023) :
    (limitDual output = true ↔ KNOCK_THRESHOLD_LEVEL ≤ output)
    ∧ limitDual 203 = false ∧ limitDual 0 = false
    ∧ limitDual 204 = true ∧ limitDual 255 = true
    ∧ limitSingle r = limitDual (analogOutput r) := by
  refine ⟨by simp [limitDual], by decide, by decide, by decide, by decide,
    ?_⟩
  rw [Bool.eq_iff_iff, limitSingle_iff, analogOutput_eq_of_le hr,
    limitDual_map_iff]

/-- Witness for C3 at output = 255, r = 819. -/
theorem claim_C3_witness :
    (255 ≤ 255) ∧ (819 ≤ 1023)
    ∧ ((limitDual 255 = true ↔ KNOCK_THRESHOLD_LEVEL ≤ 255)
      ∧ limitDual 203 = false ∧ limitDual 0 = false
      ∧ limitDual 204 = true ∧ limitDual 255 = true
      ∧ limitSingle 819 = limitDual (analogOutput 819)) :=
  ⟨by decide, by decide, claim_C3 255 819 (by decide) (by decide)⟩

/-- C4: on the ADC range the analog output is the integer truncation of
`r * 255 / 1023` (the Arduino map rescale), monotonically non-decreasing
and at most 255. -/
theorem claim_C4 (r s : Nat) (hr : r ≤ 1023) (hs : s ≤ 1023)
    (hrs : r ≤ s) :
    analogOutput r = r * 255 / 1023
    ∧ analogOutput r ≤ analogOutput s
    ∧ analogOutput r ≤ 255 := by
  refine ⟨analogOutput_eq_of_le hr, analogOutput_mono hrs hs, ?_⟩
  rw [analogOutput_eq_of_le hr]
  omega

/-- Witness for C4 at r = 500, s = 1023. -/
theorem claim_C4_witness :
    (500 ≤ 1023) ∧ (1023 ≤ 1023) ∧ (500 ≤ 1023)
    ∧ (analogOutput 500 = 500 * 255 / 1023
      ∧ analogOutput 500 ≤ analogOutput 1023
      ∧ analogOutput 500 ≤ 255) :=
  ⟨by decide, by decide, by decide,
    claim_C4 500 1023 (by decide) (by decide) (by decide)⟩

/-- C5: on the ADC range the knock percentage equals `r / 1023 * 100`,
is monotonically non-decreasing, lies in `[0, 100]`, is 0 exactly at
raw value 0 and 100 exactly at raw value 1023 (float modelled as exact
rational arithmetic). -/
theorem claim_C5 (r s : Nat) (hr : r ≤ 1023) (hrs : r ≤ s) :
    knock_percentage r = ((r : ℚ) / 1023) * 100
    ∧ knock_percentage r ≤ knock_percentage s
    ∧ 0 ≤ knock_percentage r ∧ knock_percentage r ≤ 100
    ∧ (knock_percentage r = 0 ↔ r = 0)
    ∧ (knock_percentage r = 100 ↔ r = 1023) :=
  ⟨rfl, pct_mono hrs, pct_nonneg r, pct_le_100 hr, pct_eq_zero_iff r,
    pct_eq_100_iff hr⟩

/-- Witness for C5 at r = 0, s = 1023. -/
theorem claim_C5_witness :
    (0 ≤ 1023) ∧ (0 ≤ 1023)
    ∧ (knock_percentage 0 = ((0 : ℚ) / 1023) * 100
      ∧ knock_percentage 0 ≤ knock_percentage 1023
      ∧ 0 ≤ knock_percentage 0 ∧ knock_percentage 0 ≤ 100
      ∧ (knock_percentage 0 = 0 ↔ 0 = 0)
      ∧ (knock_percentage 0 = 100 ↔ 0 = 1023)) :=
  ⟨by decide, by decide, claim_C5 0 1023 (by decide) (by decide)⟩

/-- C6 counterexample: at raw value 818 the single-channel limit
comparison `knock_percentage >= 80` is still false (the exact value is
81800/1023 ≈ 79.96), so 818 is not the smallest raw value at which the
limit is asserted. -/
theorem claim_C6_counterexample : limitSingle 818 = false := by
  cases hb : limitSingle 818 with
  | false => rfl
  | true => exact absurd ((limitSingle_iff 818).mp hb) (by omega)

/-- C6 amended: at raw value 818 the single-channel percentage is
approximately 80 % (strictly between 79.5 and 80, so it prints as 80)
and the analog output is 203, but the limit indicator is first asserted
at raw value 819, which is the smallest such input. -/
theorem claim_C6 :
    ((159 : ℚ) / 2 < knock_percentage 818 ∧ knock_percentage 818 < 80)
    ∧ analogOutput 818 = 203
    ∧ (∀ r, limitSingle r = true ↔ 819 ≤ r) := by
  refine ⟨⟨?_, ?_⟩, by decide, limitSingle_iff⟩
  · unfold knock_percentage
    norm_num
  · unfold knock_percentage
    norm_num

/-- C7 counterexample: in the single-channel variant's start-up the four
configuration bytes prescaler, band-pass, gain, integrator never occur
contiguously in the SPI byte stream — the channel-1 select byte is
written between the prescaler and the band-pass byte. -/
theorem claim_C7_counterexample :
    containsSeq
      [SPU_SET_PRESCALAR_6MHz, SPU_SET_BAND_PASS_FREQUENCY,
       SPU_SET_PROGRAMMABLE_GAIN, SPU_SET_INTEGRATOR_TIME]
      (spiBytes (setupTrace_single 0 0 0 0 0)) = false := by decide

/-- C7 amended: the dual-channel start-up writes exactly prescaler,
band-pass-frequency, gain, integrator-time over SPI in this order with
no other bytes; the single-channel start-up writes the channel-1 select
byte between the prescaler and the band-pass byte (prescaler,
channel-1, band-pass, gain, integrator). -/
theorem claim_C7 (sd : Bool) (rx1 rx2 rx3 rx4 rx5 : Nat) :
    spiBytes (setup_dual sd rx1 rx2 rx3 rx4).snd =
      [SPU_SET_PRESCALAR_6MHz, SPU_SET_BAND_PASS_FREQUENCY,
       SPU_SET_PROGRAMMABLE_GAIN, SPU_SET_INTEGRATOR_TIME]
    ∧ spiBytes (setupTrace_single rx1 rx2 rx3 rx4 rx5) =
      [SPU_SET_PRESCALAR_6MHz, SPU_SET_CHANNEL_1,
       SPU_SET_BAND_PASS_FREQUENCY, SPU_SET_PROGRAMMABLE_GAIN,
       SPU_SET_INTEGRATOR_TIME] := by
  cases sd <;> exact ⟨rfl, rfl⟩

/-- C8: the logging flag equals the start-up storage probe's answer and
is never modified by any number of loop iterations; each iteration
probes the SD card (i.e. calls the logger) exactly once when the flag is
true and never when it is false; a failed probe during a log attempt
yields exactly one error line and nothing else; and the loop trace is
the concatenation of every iteration's trace regardless of per-iteration
storage failures, so a failure never stops the loop. -/
theorem claim_C8 (sdAvailable logE sdOk : Bool) (raw1 raw2 : Nat)
    (rx1 rx2 rx3 rx4 : Nat) (inputs : List (Nat × Nat × Bool))
    (s : String) :
    (setup_dual sdAvailable rx1 rx2 rx3 rx4).fst = sdAvailable
    ∧ (runLoop logE inputs).fst = logE
    ∧ countSdBegin (loopBody raw1 raw2 logE sdOk) =
        (if logE then 1 else 0)
    ∧ logData s false =
        [.sdBegin false, .serialPrintLn "Error accessing SD-card."]
    ∧ (runLoop logE inputs).snd =
        (inputs.map fun i => loopBody i.1 i.2.1 logE i.2.2).flatten := by
  refine ⟨rfl, runLoop_fst logE inputs, ?_, rfl,
    runLoop_trace logE inputs⟩
  cases logE <;> cases sdOk <;> rfl

/-- C9: both variants' `COM_SPI` drive the SPU chip-select pin low, then
perform the single byte transfer, then drive it high again, with no
other transfer or chip-select write; in particular the last chip-select
write of every call is high, so the line is never left low. -/
theorem claim_C9 (tx rx : Nat) :
    (COM_SPI tx).filter isNssOrTransfer =
      [ .digitalWrite SPU_NSS_PIN .low, .spiTransfer tx,
        .digitalWrite SPU_NSS_PIN .high ]
    ∧ (COM_SPI_single tx rx).filter isNssOrTransfer =
      [ .digitalWrite SPU_NSS_PIN .low, .spiTransfer tx,
        .digitalWrite SPU_NSS_PIN .high ]
    ∧ (nssLevels (COM_SPI tx)).getLast? = some .high
    ∧ (nssLevels (COM_SPI_single tx rx)).getLast? = some .high :=
  ⟨rfl, rfl, rfl, rfl⟩

/-- C10: on the ADC range the `map` rescale equals the natural-number
truncation `r * 255 / 1023` cast to the `long` type, lies in `[0, 255]`
(so the `uint8_t` store never wraps), and the intermediate product
`r * 255` is at most 2^31 - 1, the `long` maximum. -/
theorem claim_C10 (r : Nat) (h : r ≤ 1023) :
    spuMap r = ((r * 255 / 1023 : Nat) : Int)
    ∧ 0 ≤ spuMap r
    ∧ spuMap r ≤ 255
    ∧ analogOutput r = (spuMap r).toNat
    ∧ r * 255 ≤ 2147483647 := by
  refine ⟨rfl, ?_, ?_, ?_, by omega⟩
  · show (0 : Int) ≤ ((r * 255 / 1023 : Nat) : Int)
    exact_mod_cast Nat.zero_le _
  · show ((r * 255 / 1023 : Nat) : Int) ≤ ((255 : Nat) : Int)
    exact_mod_cast (by omega : r * 255 / 1023 ≤ 255)
  · show r * 255 / 1023 % 256 = r * 255 / 1023
    omega

/-- Witness for C10 at r = 1023. -/
theorem claim_C10_witness :
    (1023 ≤ 1023)
    ∧ (spuMap 1023 = ((1023 * 255 / 1023 : Nat) : Int)
      ∧ 0 ≤ spuMap 1023
      ∧ spuMap 1023 ≤ 255
      ∧ analogOutput 1023 = (spuMap 1023).toNat
      ∧ 1023 * 255 ≤ 2147483647) :=
  ⟨by decide, claim_C10 1023 (by decide)⟩

end KnockShield
